import Mathlib

/-!
Verification of the Pong game core (physics, AI, store actions, engine tick)
against its natural-language specification.  JavaScript numbers are modelled
as real numbers; `Math.cos`/`Math.sin`/`Math.hypot`/`Math.sign` become
`Real.cos`/`Real.sin`/`Real.sqrt`/`Real.sign`.  The JavaScript expression
`Math.sign(v || 1)` (`0` is falsy) is modelled as
`Real.sign (if v = 0 then 1 else v)`.
-/

noncomputable section

namespace GAME_CONFIG

/-- `GAME_CONFIG.PADDLE_WIDTH` from gameConfig.js. -/
def PADDLE_WIDTH : ℝ := 12

/-- `GAME_CONFIG.PADDLE_HEIGHT_RATIO` from gameConfig.js (height relative to canvas). -/
def PADDLE_HEIGHT_SCALE : ℝ := 0.18

/-- `GAME_CONFIG.PADDLE_SPEED` from gameConfig.js. -/
def PADDLE_SPEED : ℝ := 7

/-- `GAME_CONFIG.PADDLE_MARGIN` from gameConfig.js. -/
def PADDLE_MARGIN : ℝ := 20

/-- `GAME_CONFIG.MIN_PADDLE_HEIGHT` from gameConfig.js. -/
def MIN_PADDLE_HEIGHT : ℝ := 60

/-- `GAME_CONFIG.BALL_SIZE` from gameConfig.js. -/
def BALL_SIZE : ℝ := 10

/-- `GAME_CONFIG.BALL_SPEED_START` from gameConfig.js. -/
def BALL_SPEED_START : ℝ := 5.2

/-- `GAME_CONFIG.BALL_SPEED_MAX` from gameConfig.js. -/
def BALL_SPEED_MAX : ℝ := 13.0

/-- `GAME_CONFIG.BALL_SPEED_INCREASE` from gameConfig.js. -/
def BALL_SPEED_INCREASE : ℝ := 1.06

/-- `GAME_CONFIG.MIN_BALL_SPEED_Y` from gameConfig.js. -/
def MIN_BALL_SPEED_Y : ℝ := 0.9

/-- `GAME_CONFIG.MIN_BALL_SPEED_Y_INITIAL` from gameConfig.js. -/
def MIN_BALL_SPEED_Y_INITIAL : ℝ := 1.2

/-- `GAME_CONFIG.AI_SPEED` from gameConfig.js. -/
def AI_SPEED : ℝ := 5.5

/-- `GAME_CONFIG.WIN_SCORE` from gameConfig.js. -/
def WIN_SCORE : ℕ := 11

/-- `GAME_CONFIG.MAX_REFLECTION_ANGLE` from gameConfig.js (`Math.PI * 0.35`). -/
def MAX_REFLECTION_ANGLE : ℝ := Real.pi * 0.35

/-- `GAME_CONFIG.ANGLE_VARIATION` from gameConfig.js. -/
def ANGLE_VARIATION : ℝ := 0.6

end GAME_CONFIG

/-- Ball state `{x, y, vx, vy}` as held in the store and threaded through the
physics functions. -/
structure Ball where
  x : ℝ
  y : ℝ
  vx : ℝ
  vy : ℝ

/-- Paddle state `{y, height}`. -/
structure Paddle where
  y : ℝ
  height : ℝ

/-- JavaScript `Math.sign`, with `Math.sign(v || 1)` modelled at call sites by
substituting `1` for a zero argument. -/
def jsSign (v : ℝ) : ℝ := Real.sign v

/-- `clamp` from physics.js: `Math.max(min, Math.min(max, value))`. -/
def clamp (value min' max' : ℝ) : ℝ := max min' (min max' value)

/-- `calculateReflection` from physics.js: reflection velocity when the ball
hits a paddle at fractional position `hitPosition`. -/
def calculateReflection (hitPosition : ℝ) (isLeftPaddle : Bool)
    (currentVX currentVY : ℝ) : ℝ × ℝ :=
  let offCenter := (hitPosition - 0.5) * 2
  let angle := offCenter * GAME_CONFIG.MAX_REFLECTION_ANGLE
  let currentSpeed := Real.sqrt (currentVX ^ 2 + currentVY ^ 2)
  let newSpeed := min (currentSpeed * GAME_CONFIG.BALL_SPEED_INCREASE) GAME_CONFIG.BALL_SPEED_MAX
  let direction : ℝ := if isLeftPaddle then 1 else -1
  let vx := Real.cos angle * newSpeed * direction
  let vy0 := Real.sin angle * newSpeed
  let vy := if |vy0| < GAME_CONFIG.MIN_BALL_SPEED_Y then
      jsSign (if vy0 = 0 then 1 else vy0) * GAME_CONFIG.MIN_BALL_SPEED_Y
    else vy0
  (vx, vy)

/-- Result record of `checkPaddleCollision` (`{hitPosition, newX, isLeftPaddle}`). -/
structure PaddleHit where
  hitPosition : ℝ
  newX : ℝ
  isLeftPaddle : Bool

/-- `checkPaddleCollision` from physics.js. -/
def checkPaddleCollision (ball : Ball) (paddle : Paddle) (isLeftPaddle : Bool)
    (canvasWidth : ℝ) : Option PaddleHit :=
  let paddleX := if isLeftPaddle then GAME_CONFIG.PADDLE_MARGIN
    else canvasWidth - GAME_CONFIG.PADDLE_MARGIN - GAME_CONFIG.PADDLE_WIDTH
  let ballRadius := GAME_CONFIG.BALL_SIZE / 2
  let ballInXRange : Prop := if isLeftPaddle then
      ball.x - ballRadius ≤ paddleX + GAME_CONFIG.PADDLE_WIDTH ∧ ball.x > paddleX
    else
      ball.x + ballRadius ≥ paddleX ∧ ball.x < paddleX + GAME_CONFIG.PADDLE_WIDTH
  let ballInYRange : Prop := ball.y ≥ paddle.y ∧ ball.y ≤ paddle.y + paddle.height
  let movingTowardPaddle : Prop := if isLeftPaddle then ball.vx < 0 else ball.vx > 0
  if ballInXRange ∧ ballInYRange ∧ movingTowardPaddle then
    some { hitPosition := (ball.y - paddle.y) / paddle.height
         , newX := if isLeftPaddle then paddleX + GAME_CONFIG.PADDLE_WIDTH + ballRadius + 0.5
             else paddleX - ballRadius - 0.5
         , isLeftPaddle := isLeftPaddle }
  else
    none

/-- Result record of `checkWallCollision` (`{newY, newVY}`). -/
structure WallHit where
  newY : ℝ
  newVY : ℝ

/-- `checkWallCollision` from physics.js. -/
def checkWallCollision (ball : Ball) (canvasHeight : ℝ) : Option WallHit :=
  let ballRadius := GAME_CONFIG.BALL_SIZE / 2
  if ball.y - ballRadius ≤ 0 ∧ ball.vy < 0 then
    some { newY := ballRadius, newVY := -ball.vy }
  else if ball.y + ballRadius ≥ canvasHeight ∧ ball.vy > 0 then
    some { newY := canvasHeight - ballRadius, newVY := -ball.vy }
  else
    none

/-- `checkScoring` from physics.js. -/
def checkScoring (ball : Ball) (canvasWidth : ℝ) : Option Bool :=
  let ballRadius := GAME_CONFIG.BALL_SIZE / 2
  if ball.x < -ballRadius then some false
  else if ball.x > canvasWidth + ballRadius then some true
  else none

/-- `updateBallPosition` from physics.js. -/
def updateBallPosition (ball : Ball) : Ball :=
  { x := ball.x + ball.vx, y := ball.y + ball.vy, vx := ball.vx, vy := ball.vy }

/-- `updatePaddlePosition` from physics.js. -/
def updatePaddlePosition (paddle : Paddle) (movement speed canvasHeight : ℝ) : Paddle :=
  let newY := paddle.y + movement * speed
  { paddle with y := clamp newY 0 (canvasHeight - paddle.height) }

/-- `calculateAIMovement` from ai.js (basic reactive AI). -/
def calculateAIMovement (ball : Ball) (paddle : Paddle) (canvasHeight : ℝ) : ℝ :=
  let targetY := ball.y - paddle.height / 2
  let currentY := paddle.y
  let distance := targetY - currentY
  if |distance| ≤ GAME_CONFIG.AI_SPEED then 0
  else
    let direction := Real.sign distance
    let movement := direction * GAME_CONFIG.AI_SPEED
    let newY := currentY + movement
    let maxY := canvasHeight - paddle.height
    if newY < 0 then -currentY
    else if newY > maxY then maxY - currentY
    else movement

/-- `calculatePredictiveAIMovement` from ai.js.  `rand` stands for the value
drawn from `Math.random()` inside the function (a number in `[0,1)`). -/
def calculatePredictiveAIMovement (ball : Ball) (paddle : Paddle)
    (canvasWidth canvasHeight difficulty rand : ℝ) : ℝ :=
  if ball.vx < 0 then
    let centerY := (canvasHeight - paddle.height) / 2
    let distance := centerY - paddle.y
    if |distance| ≤ GAME_CONFIG.AI_SPEED then 0
    else Real.sign distance * GAME_CONFIG.AI_SPEED * 0.5
  else
    let paddleX := canvasWidth - GAME_CONFIG.PADDLE_MARGIN - GAME_CONFIG.PADDLE_WIDTH
    let timeToReach := (paddleX - ball.x) / ball.vx
    if timeToReach ≤ 0 then calculateAIMovement ball paddle canvasHeight
    else
      let predictedY0 := ball.y + ball.vy * timeToReach
      let predictedVY := ball.vy
      let ballRadius := GAME_CONFIG.BALL_SIZE / 2
      let predictedY1 :=
        if predictedY0 < ballRadius ∧ predictedVY < 0 then
          let wallHitTime := (ballRadius - ball.y) / ball.vy
          let wallHitY := ballRadius
          let remainingTime := timeToReach - wallHitTime
          wallHitY + -predictedVY * remainingTime
        else if predictedY0 > canvasHeight - ballRadius ∧ predictedVY > 0 then
          let wallHitTime := (canvasHeight - ballRadius - ball.y) / ball.vy
          let wallHitY := canvasHeight - ballRadius
          let remainingTime := timeToReach - wallHitTime
          wallHitY + -predictedVY * remainingTime
        else predictedY0
      let imperfection := (1 - min difficulty 1) * 50
      let predictedY := predictedY1 + (rand - 0.5) * imperfection
      let targetY := predictedY - paddle.height / 2
      let distance := targetY - paddle.y
      let aiSpeed := GAME_CONFIG.AI_SPEED * difficulty
      if |distance| ≤ aiSpeed then 0
      else Real.sign distance * aiSpeed

/-- `createAI(...).update` from ai.js: runs the predictive controller with the
profile multiplier and clamps the new y into canvas bounds
(`Math.max(0, Math.min(paddle.y + movement, canvasHeight - paddle.height))`). -/
def createAI_update (ball : Ball) (paddle : Paddle)
    (canvasWidth canvasHeight multiplier rand : ℝ) : ℝ :=
  let movement := calculatePredictiveAIMovement ball paddle canvasWidth canvasHeight multiplier rand
  max 0 (min (paddle.y + movement) (canvasHeight - paddle.height))

/-- The two scoring sides.  The source compares `side === 'left'` and treats
every other value as the right side. -/
inductive Side where
  | left
  | right
deriving DecidableEq

/-- The `gameState` store record `{paused, over, scoreLeft, scoreRight}`. -/
structure GameState where
  paused : Bool
  over : Bool
  scoreLeft : ℕ
  scoreRight : ℕ
deriving DecidableEq

namespace gameActions

/-- The ball produced by `gameActions.resetBall(toLeft)` in gameStore.js, given
the canvas size and the value `rand` drawn from `Math.random()`.  This folds in
the follow-up `ball.update` that forces `|vy|` up to
`MIN_BALL_SPEED_Y_INITIAL`. -/
def resetBall (rand : ℝ) (toLeft : Bool) (canvasWidth canvasHeight : ℝ) : Ball :=
  let angle := (rand * GAME_CONFIG.ANGLE_VARIATION - GAME_CONFIG.ANGLE_VARIATION / 2) +
    (if toLeft then Real.pi else 0)
  let speed := GAME_CONFIG.BALL_SPEED_START
  let vx := Real.cos angle * speed * (if toLeft then -1 else 1)
  let vy0 := Real.sin angle * speed
  let vy := if |vy0| < GAME_CONFIG.MIN_BALL_SPEED_Y_INITIAL then
      jsSign (if vy0 = 0 then 1 else vy0) * GAME_CONFIG.MIN_BALL_SPEED_Y_INITIAL
    else vy0
  { x := canvasWidth / 2, y := canvasHeight / 2, vx := vx, vy := vy }

/-- The paddle height computed by `gameActions.resetPositions` in gameStore.js:
`Math.max(MIN_PADDLE_HEIGHT, canvasHeight * PADDLE_HEIGHT_RATIO)`. -/
def resetPaddleHeight (canvasHeight : ℝ) : ℝ :=
  max GAME_CONFIG.MIN_PADDLE_HEIGHT (canvasHeight * GAME_CONFIG.PADDLE_HEIGHT_SCALE)

/-- The centered paddle y computed by `gameActions.resetPositions`:
`(canvasHeight - paddleHeight) / 2`; both paddles get this y. -/
def resetPositionsY (canvasHeight : ℝ) : ℝ :=
  (canvasHeight - resetPaddleHeight canvasHeight) / 2

/-- The `gameState.update` transition inside `gameActions.resetMatch` in
gameStore.js (the action additionally recenters paddles and relaunches the
ball, modelled by `resetPositionsY` and `resetBall`). -/
def resetMatch (s : GameState) : GameState :=
  { s with paused := false, over := false, scoreLeft := 0, scoreRight := 0 }

/-- `gameActions.togglePause` from gameStore.js. -/
def togglePause (s : GameState) : GameState :=
  if s.over then s else { s with paused := !s.paused }

/-- The `gameState.update` transition inside `gameActions.scorePoint(side)` in
gameStore.js: increment the named side's score, then set `over`/`paused` when
either score reaches `WIN_SCORE` (the action additionally resets positions and
relaunches the ball toward the loser). -/
def scorePoint (s : GameState) (side : Side) : GameState :=
  let newState := match side with
    | Side.left => { s with scoreLeft := s.scoreLeft + 1 }
    | Side.right => { s with scoreRight := s.scoreRight + 1 }
  if newState.scoreLeft ≥ GAME_CONFIG.WIN_SCORE ∨
      newState.scoreRight ≥ GAME_CONFIG.WIN_SCORE then
    { newState with over := true, paused := true }
  else newState

/-- `gameActions.updatePaddlePosition(side, y)` from gameStore.js: the updated
y of the addressed paddle, `Math.max(0, Math.min(maxY, y))` with
`maxY = canvasHeight - height`. -/
def updatePaddlePosition (paddle : Paddle) (canvasHeight y : ℝ) : ℝ :=
  let maxY := canvasHeight - paddle.height
  max 0 (min maxY y)

end gameActions

/-- The abstract actions of claim C5: the store actions a client may fire once
a match is over (scoring another point or pressing pause). -/
inductive GAction where
  | score (side : Side)
  | toggle

/-- Apply one store action to the `gameState` record. -/
def applyGAction (s : GameState) (a : GAction) : GameState :=
  match a with
  | GAction.score side => gameActions.scorePoint s side
  | GAction.toggle => gameActions.togglePause s

/-- The ball state after `updatePhysics` in gameEngine.js has integrated the
position and resolved the wall collision (`newBall.y = wallCollision.newY;
newBall.vy = wallCollision.newVY`). -/
def postWallBall (canvasHeight : ℝ) (b : Ball) : Ball :=
  let nb := updateBallPosition b
  match checkWallCollision nb canvasHeight with
  | some w => { nb with y := w.newY, vy := w.newVY }
  | none => nb

/-- Apply a paddle-collision result inside `updatePhysics`:
`newBall.vx = reflection.vx; newBall.vy = reflection.vy;
newBall.x = collision.newX`. -/
def applyPaddleHit (b : Ball) (c : PaddleHit) : Ball :=
  let reflection := calculateReflection c.hitPosition c.isLeftPaddle b.vx b.vy
  { b with vx := reflection.1, vy := reflection.2, x := c.newX }

/-- The ball pipeline of `updatePhysics` in gameEngine.js, as written: move,
resolve the wall collision, then the left-paddle check and reflection, then the
right-paddle check and reflection on the ball as mutated so far. -/
def tickBall (canvasWidth canvasHeight : ℝ) (leftPaddle rightPaddle : Paddle)
    (b : Ball) : Ball :=
  let nb := postWallBall canvasHeight b
  let nb1 := match checkPaddleCollision nb leftPaddle true canvasWidth with
    | some c => applyPaddleHit nb c
    | none => nb
  match checkPaddleCollision nb1 rightPaddle false canvasWidth with
  | some c => applyPaddleHit nb1 c
  | none => nb1

/-- Modelled from the spec sentence of claim C4: both paddle-collision checks
are evaluated against the same post-wall-collision ball state, so the right
check does not see the output of the left reflection. -/
def tickBallClaim (canvasWidth canvasHeight : ℝ) (leftPaddle rightPaddle : Paddle)
    (b : Ball) : Ball :=
  let nb := postWallBall canvasHeight b
  let nb1 := match checkPaddleCollision nb leftPaddle true canvasWidth with
    | some c => applyPaddleHit nb c
    | none => nb
  match checkPaddleCollision nb rightPaddle false canvasWidth with
  | some c => applyPaddleHit nb1 c
  | none => nb1

/-- `getKeysForAction` from gameConfig.js (`GAME_CONFIG.KEYS[action] || []`). -/
def getKeysForAction (action : String) : List String :=
  if action = "up" then ["arrowup", "w"]
  else if action = "down" then ["arrowdown", "s"]
  else if action = "pause" then [" ", "spacebar"]
  else if action = "restart" then ["r"]
  else []

/-- JavaScript `String.prototype.toLowerCase` (ASCII range suffices for the
key names used here), written through `List.map` on the character data. -/
def jsToLowerCase (s : String) : String := ⟨s.data.map Char.toLower⟩

/-- `isKeyForAction` from gameConfig.js:
`getKeysForAction(action).includes(key.toLowerCase())`. -/
def isKeyForAction (key action : String) : Bool :=
  (getKeysForAction action).contains (jsToLowerCase key)

/-- `calculateMovement` from inputHandler.js: start at 0, subtract 1 when some
active key is an up key, add 1 when some active key is a down key.  The
JavaScript `Set` of active keys is modelled as a list. -/
def calculateMovement (activeKeys : List String) : Int :=
  let movement : Int := 0
  let movement := if activeKeys.any (fun k => isKeyForAction k ("up")) then movement - 1 else movement
  let movement := if activeKeys.any (fun k => isKeyForAction k ("down")) then movement + 1 else movement
  movement

/-- Claim C9: for every set of active movement keys, `calculateMovement`
returns `-1` when only an up key is pressed, `0` when an up key and a down key
are pressed together, and `0` when no movement key is pressed. -/
theorem calculateMovement_cases (activeKeys : List String) :
    ((activeKeys.any fun k => isKeyForAction k ("up")) = true →
      (activeKeys.any fun k => isKeyForAction k ("down")) = false →
      calculateMovement activeKeys = -1) ∧
    ((activeKeys.any fun k => isKeyForAction k ("up")) = true →
      (activeKeys.any fun k => isKeyForAction k ("down")) = true →
      calculateMovement activeKeys = 0) ∧
    ((activeKeys.any fun k => isKeyForAction k ("up")) = false →
      (activeKeys.any fun k => isKeyForAction k ("down")) = false →
      calculateMovement activeKeys = 0) := by
  unfold calculateMovement
  refine ⟨?_, ?_, ?_⟩ <;> intro h1 h2 <;> simp [h1, h2]

/-- Witness for claim C9: the key `w` alone yields `-1`, `w` and `s` together
yield `0`, and no keys yield `0`. -/
theorem calculateMovement_cases_witness :
    calculateMovement ["w"] = -1 ∧ calculateMovement ["w", "s"] = 0 ∧
      calculateMovement ([] : List String) = 0 :=
  ⟨(calculateMovement_cases ["w"]).1 (by decide) (by decide),
   (calculateMovement_cases ["w", "s"]).2.1 (by decide) (by decide),
   (calculateMovement_cases []).2.2 (by decide) (by decide)⟩

/-- Claim C3 counterexample: in the state `{paused := true, over := true,
scoreLeft := 11, scoreRight := 5}` a further `scorePoint('left')` still
increments the left score to 12, so scores are not frozen once `over`. -/
theorem scorePoint_when_over_changes_score :
    (gameActions.scorePoint ⟨true, true, 11, 5⟩ Side.left).scoreLeft ≠ 11 := by
  decide

/-- Claim C3 (amended): with `over = true`, `scorePoint` still increments the
named side's score by one, leaving the other side's score unchanged; it
preserves `over = true`, and preserves `paused = true` when paused. -/
theorem scorePoint_when_over (s : GameState) (side : Side)
    (hover : s.over = true) :
    (gameActions.scorePoint s side).over = true ∧
    (gameActions.scorePoint s side).scoreLeft =
      (match side with
        | Side.left => s.scoreLeft + 1
        | Side.right => s.scoreLeft) ∧
    (gameActions.scorePoint s side).scoreRight =
      (match side with
        | Side.left => s.scoreRight
        | Side.right => s.scoreRight + 1) ∧
    (s.paused = true → (gameActions.scorePoint s side).paused = true) := by
  unfold gameActions.scorePoint
  cases side <;> simp <;> split <;> simp_all

/-- Witness for claim C3 (amended): instantiated at the over state with
scores 11 and 5 and a further left point, which credits the left side only. -/
theorem scorePoint_when_over_witness :
    (gameActions.scorePoint ⟨true, true, 11, 5⟩ Side.left).over = true ∧
    (gameActions.scorePoint ⟨true, true, 11, 5⟩ Side.left).scoreLeft = 11 + 1 ∧
    (gameActions.scorePoint ⟨true, true, 11, 5⟩ Side.left).scoreRight = 5 ∧
    ((true : Bool) = true →
      (gameActions.scorePoint ⟨true, true, 11, 5⟩ Side.left).paused = true) :=
  scorePoint_when_over ⟨true, true, 11, 5⟩ Side.left rfl

/-- One step of claim C5: each of `scorePoint` and `togglePause` preserves
`over = true ∧ paused = true`. -/
theorem applyGAction_preserves_over_paused (s : GameState) (a : GAction)
    (h : s.over = true ∧ s.paused = true) :
    (applyGAction s a).over = true ∧ (applyGAction s a).paused = true := by
  obtain ⟨ho, hp⟩ := h
  cases a with
  | score side =>
    show (gameActions.scorePoint s side).over = true ∧ (gameActions.scorePoint s side).paused = true
    unfold gameActions.scorePoint
    cases side <;> simp <;> split <;> simp_all
  | toggle =>
    show (gameActions.togglePause s).over = true ∧ (gameActions.togglePause s).paused = true
    unfold gameActions.togglePause
    simp [ho, hp]

/-- Claim C5: once a state has `over = true` and `paused = true`, every
sequence of `scorePoint` and `togglePause` calls keeps both flags true, and
`resetMatch` is the action that clears them (it always yields
`paused = false` and `over = false`). -/
theorem over_paused_frozen_until_reset (s : GameState)
    (hover : s.over = true) (hpaused : s.paused = true) (acts : List GAction) :
    (acts.foldl applyGAction s).over = true ∧
    (acts.foldl applyGAction s).paused = true ∧
    (gameActions.resetMatch (acts.foldl applyGAction s)).over = false ∧
    (gameActions.resetMatch (acts.foldl applyGAction s)).paused = false := by
  have main : ∀ (l : List GAction) (t : GameState), t.over = true → t.paused = true →
      (l.foldl applyGAction t).over = true ∧ (l.foldl applyGAction t).paused = true := by
    intro l
    induction l with
    | nil => intro t ho hp; exact ⟨ho, hp⟩
    | cons a l ih =>
      intro t ho hp
      have h2 := applyGAction_preserves_over_paused t a ⟨ho, hp⟩
      exact ih _ h2.1 h2.2
  obtain ⟨h1, h2⟩ := main acts s hover hpaused
  exact ⟨h1, h2, rfl, rfl⟩

/-- Witness for claim C5: the over state with scores 11 and 3 stays
over and paused through a further point and a pause press; `resetMatch`
clears both flags. -/
theorem over_paused_frozen_until_reset_witness :
    (([GAction.score Side.left, GAction.toggle].foldl applyGAction
        ⟨true, true, 11, 3⟩).over = true) ∧
    (([GAction.score Side.left, GAction.toggle].foldl applyGAction
        ⟨true, true, 11, 3⟩).paused = true) ∧
    ((gameActions.resetMatch ([GAction.score Side.left, GAction.toggle].foldl applyGAction
        ⟨true, true, 11, 3⟩)).over = false) ∧
    ((gameActions.resetMatch ([GAction.score Side.left, GAction.toggle].foldl applyGAction
        ⟨true, true, 11, 3⟩)).paused = false) :=
  over_paused_frozen_until_reset ⟨true, true, 11, 3⟩ rfl rfl
    [GAction.score Side.left, GAction.toggle]

/-- Claim C7: `checkWallCollision` reflects `vy` exactly (equal magnitude,
opposite sign) and repositions the ball flush against the struck wall, and
returns `none` whenever neither wall condition triggers. -/
theorem checkWallCollision_spec (b : Ball) (canvasHeight : ℝ) :
    (b.y - GAME_CONFIG.BALL_SIZE / 2 ≤ 0 ∧ b.vy < 0 →
      checkWallCollision b canvasHeight =
        some ⟨GAME_CONFIG.BALL_SIZE / 2, -b.vy⟩) ∧
    (b.y + GAME_CONFIG.BALL_SIZE / 2 ≥ canvasHeight ∧ b.vy > 0 →
      checkWallCollision b canvasHeight =
        some ⟨canvasHeight - GAME_CONFIG.BALL_SIZE / 2, -b.vy⟩) ∧
    (¬(b.y - GAME_CONFIG.BALL_SIZE / 2 ≤ 0 ∧ b.vy < 0) ∧
      ¬(b.y + GAME_CONFIG.BALL_SIZE / 2 ≥ canvasHeight ∧ b.vy > 0) →
      checkWallCollision b canvasHeight = none) := by
  unfold checkWallCollision
  refine ⟨fun h => ?_, fun h => ?_, fun h => ?_⟩
  · rw [if_pos h]
  · have hnot : ¬(b.y - GAME_CONFIG.BALL_SIZE / 2 ≤ 0 ∧ b.vy < 0) := by
      rintro ⟨_, hlt⟩
      exact absurd h.2 (not_lt.mpr hlt.le)
    rw [if_neg hnot, if_pos h]
  · rw [if_neg h.1, if_neg h.2]

/-- Witness for claim C7: a ball at `y = 3` moving up with `vy = -2` bounces
off the top wall to `y = 5` with `vy = 2`. -/
theorem checkWallCollision_spec_witness :
    checkWallCollision ⟨0, 3, 0, -2⟩ 500 =
      some ⟨GAME_CONFIG.BALL_SIZE / 2, -(-2)⟩ :=
  (checkWallCollision_spec ⟨0, 3, 0, -2⟩ 500).1
    ⟨by norm_num [GAME_CONFIG.BALL_SIZE], by norm_num⟩


/-- Evaluation of `calculateReflection` at a center hit with incoming velocity
`(13, 0)`: the speed caps at 13 and the vertical floor then forces
`vy = 0.9`. -/
theorem calculateReflection_center_cap :
    calculateReflection 0.5 true 13 0 = (13, 0.9) := by
  unfold calculateReflection
  have hz : ((0.5:ℝ) - 0.5) * 2 = 0 := by norm_num
  have hs : Real.sqrt ((13:ℝ) ^ 2 + 0 ^ 2) = 13 := by
    rw [show ((13:ℝ) ^ 2 + 0 ^ 2) = 13 ^ 2 by norm_num]
    exact Real.sqrt_sq (by norm_num)
  simp only [hz, zero_mul, Real.cos_zero, Real.sin_zero, hs]
  rw [show min ((13:ℝ) * GAME_CONFIG.BALL_SPEED_INCREASE) GAME_CONFIG.BALL_SPEED_MAX = 13 by
    rw [min_eq_right (by norm_num [GAME_CONFIG.BALL_SPEED_INCREASE, GAME_CONFIG.BALL_SPEED_MAX])]
    norm_num [GAME_CONFIG.BALL_SPEED_MAX]]
  norm_num [jsSign, Real.sign_one, GAME_CONFIG.MIN_BALL_SPEED_Y]

/-- Claim C1 counterexample: a center hit at the speed cap gives velocity
`(13, 0.9)`, whose magnitude `sqrt(169.81)` exceeds `BALL_SPEED_MAX = 13`; the
minimum-vertical-speed correction is applied after the cap and can push the
speed above it. -/
theorem reflection_speed_can_exceed_max :
    ¬ Real.sqrt ((calculateReflection 0.5 true 13 0).1 ^ 2 +
        (calculateReflection 0.5 true 13 0).2 ^ 2) ≤ GAME_CONFIG.BALL_SPEED_MAX := by
  rw [calculateReflection_center_cap]
  rw [not_le]
  rw [show ((13:ℝ), (0.9:ℝ)).1 = 13 from rfl, show ((13:ℝ), (0.9:ℝ)).2 = 0.9 from rfl]
  rw [GAME_CONFIG.BALL_SPEED_MAX]
  rw [Real.lt_sqrt (by norm_num)]
  norm_num

/-- Claim C1 (amended): for every hit position in `[0,1]`, every paddle flag
and every incoming velocity, the reflected speed is at most
`sqrt(BALL_SPEED_MAX^2 + MIN_BALL_SPEED_Y^2)` (about 13.031, not 13), and
`|vy|` is at least `MIN_BALL_SPEED_Y`. -/
theorem calculateReflection_bounded (hitPosition : ℝ) (isLeftPaddle : Bool)
    (vx vy p q : ℝ) (h0 : 0 ≤ hitPosition) (h1 : hitPosition ≤ 1)
    (hpq : calculateReflection hitPosition isLeftPaddle vx vy = (p, q)) :
    Real.sqrt (p ^ 2 + q ^ 2) ≤
      Real.sqrt (GAME_CONFIG.BALL_SPEED_MAX ^ 2 + GAME_CONFIG.MIN_BALL_SPEED_Y ^ 2) ∧
    GAME_CONFIG.MIN_BALL_SPEED_Y ≤ |q| := by
  unfold calculateReflection at hpq
  simp only [Prod.mk.injEq] at hpq
  obtain ⟨hp, hq⟩ := hpq
  subst hp
  subst hq
  set angle := (hitPosition - 0.5) * 2 * GAME_CONFIG.MAX_REFLECTION_ANGLE with hangle
  set ns := min (Real.sqrt (vx ^ 2 + vy ^ 2) * GAME_CONFIG.BALL_SPEED_INCREASE)
    GAME_CONFIG.BALL_SPEED_MAX with hns
  set A := Real.cos angle with hA
  set S := Real.sin angle with hS
  have hns0 : 0 ≤ ns := by
    rw [hns]
    refine le_min (mul_nonneg (Real.sqrt_nonneg _) (by norm_num [GAME_CONFIG.BALL_SPEED_INCREASE])) ?_
    norm_num [GAME_CONFIG.BALL_SPEED_MAX]
  have hnsM : ns ≤ GAME_CONFIG.BALL_SPEED_MAX := min_le_right _ _
  have hMpos : (0:ℝ) ≤ GAME_CONFIG.BALL_SPEED_MAX := by norm_num [GAME_CONFIG.BALL_SPEED_MAX]
  have hns2 : ns ^ 2 ≤ GAME_CONFIG.BALL_SPEED_MAX ^ 2 := by nlinarith
  have hdir2 : (if isLeftPaddle then (1:ℝ) else -1) ^ 2 = 1 := by
    cases isLeftPaddle <;> norm_num
  have hA2 : A ^ 2 ≤ 1 := by
    have := Real.neg_one_le_cos angle
    have := Real.cos_le_one angle
    rw [hA]; nlinarith
  have hAS : S ^ 2 + A ^ 2 = 1 := by rw [hS, hA]; exact Real.sin_sq_add_cos_sq angle
  have hvx2 : (A * ns * (if isLeftPaddle then (1:ℝ) else -1)) ^ 2 ≤ ns ^ 2 := by
    have expand : (A * ns * (if isLeftPaddle then (1:ℝ) else -1)) ^ 2
        = A ^ 2 * ns ^ 2 * (if isLeftPaddle then (1:ℝ) else -1) ^ 2 := by ring
    rw [expand, hdir2, mul_one]
    nlinarith [sq_nonneg ns]
  have hY0 : (0:ℝ) < GAME_CONFIG.MIN_BALL_SPEED_Y := by norm_num [GAME_CONFIG.MIN_BALL_SPEED_Y]
  by_cases hf : |S * ns| < GAME_CONFIG.MIN_BALL_SPEED_Y
  · rw [if_pos hf]
    have harg : (if S * ns = 0 then (1:ℝ) else S * ns) ≠ 0 := by
      split
      · norm_num
      · rename_i hne; exact hne
    have hsgabs : |jsSign (if S * ns = 0 then (1:ℝ) else S * ns)| = 1 := by
      unfold jsSign
      rcases lt_trichotomy (if S * ns = 0 then (1:ℝ) else S * ns) 0 with hlt | heq | hgt
      · rw [Real.sign_of_neg hlt]; norm_num
      · exact absurd heq harg
      · rw [Real.sign_of_pos hgt]; norm_num
    have habsq : |jsSign (if S * ns = 0 then (1:ℝ) else S * ns) * GAME_CONFIG.MIN_BALL_SPEED_Y|
        = GAME_CONFIG.MIN_BALL_SPEED_Y := by
      rw [abs_mul, hsgabs, one_mul, abs_of_nonneg hY0.le]
    constructor
    · apply Real.sqrt_le_sqrt
      have hq2 : (jsSign (if S * ns = 0 then (1:ℝ) else S * ns) *
          GAME_CONFIG.MIN_BALL_SPEED_Y) ^ 2 = GAME_CONFIG.MIN_BALL_SPEED_Y ^ 2 := by
        rw [← sq_abs, habsq]
      rw [hq2]
      linarith
    · rw [habsq]
  · rw [if_neg hf]
    push_neg at hf
    constructor
    · apply Real.sqrt_le_sqrt
      have hsum : (A * ns * (if isLeftPaddle then (1:ℝ) else -1)) ^ 2 + (S * ns) ^ 2
          = (S ^ 2 + A ^ 2) * ns ^ 2 * (if isLeftPaddle then (1:ℝ) else -1) ^ 2
            - S ^ 2 * ns ^ 2 * ((if isLeftPaddle then (1:ℝ) else -1) ^ 2 - 1) := by
        ring
      rw [hsum, hAS, hdir2]
      have hred : (1:ℝ) * ns ^ 2 * 1 - S ^ 2 * ns ^ 2 * (1 - 1) = ns ^ 2 := by ring
      rw [hred]
      nlinarith [sq_nonneg GAME_CONFIG.MIN_BALL_SPEED_Y]
    · exact hf

/-- Witness for claim C1 (amended): instantiated at a center hit with incoming
velocity `(13, 0)`, whose reflection is `(13, 0.9)`. -/
theorem calculateReflection_bounded_witness :
    Real.sqrt ((13:ℝ) ^ 2 + (0.9:ℝ) ^ 2) ≤
      Real.sqrt (GAME_CONFIG.BALL_SPEED_MAX ^ 2 + GAME_CONFIG.MIN_BALL_SPEED_Y ^ 2) ∧
    GAME_CONFIG.MIN_BALL_SPEED_Y ≤ |(0.9:ℝ)| :=
  calculateReflection_bounded 0.5 true 13 0 13 0.9 (by norm_num) (by norm_num)
    calculateReflection_center_cap

/-- Claim C10 counterexample: with incoming velocity `(0, 0)` the current
speed is 0, so the reflected `vx` is 0 and not strictly positive even for the
left paddle. -/
theorem reflection_zero_velocity_not_away :
    ¬ 0 < (calculateReflection 0.5 true 0 0).1 := by
  have hval : calculateReflection 0.5 true 0 0 = (0, 0.9 * 1) := by
    unfold calculateReflection
    have hz : ((0.5:ℝ) - 0.5) * 2 = 0 := by norm_num
    have hs : Real.sqrt ((0:ℝ) ^ 2 + 0 ^ 2) = 0 := by
      rw [show ((0:ℝ) ^ 2 + 0 ^ 2) = 0 by norm_num]
      exact Real.sqrt_zero
    simp only [hz, zero_mul, Real.cos_zero, Real.sin_zero, hs]
    rw [show ((0:ℝ) ⊓ GAME_CONFIG.BALL_SPEED_MAX) = 0 from
      min_eq_left (by norm_num [GAME_CONFIG.BALL_SPEED_MAX])]
    norm_num [jsSign, Real.sign_one, GAME_CONFIG.MIN_BALL_SPEED_Y]
  rw [hval]
  norm_num

/-- Claim C10 (amended): for every hit position in `[0,1]` and every nonzero
incoming velocity, the reflected `vx` points away from the struck paddle:
positive off the left paddle, negative off the right paddle. -/
theorem calculateReflection_vx_away (hitPosition vx vy : ℝ)
    (h0 : 0 ≤ hitPosition) (h1 : hitPosition ≤ 1) (hv : vx ≠ 0 ∨ vy ≠ 0) :
    0 < (calculateReflection hitPosition true vx vy).1 ∧
    (calculateReflection hitPosition false vx vy).1 < 0 := by
  have hcs : 0 < Real.sqrt (vx ^ 2 + vy ^ 2) := by
    rw [Real.sqrt_pos]
    rcases hv with h | h
    · positivity
    · positivity
  have hns : 0 < min (Real.sqrt (vx ^ 2 + vy ^ 2) * GAME_CONFIG.BALL_SPEED_INCREASE)
      GAME_CONFIG.BALL_SPEED_MAX := by
    refine lt_min ?_ ?_
    · have hinc : (0:ℝ) < GAME_CONFIG.BALL_SPEED_INCREASE := by
        norm_num [GAME_CONFIG.BALL_SPEED_INCREASE]
      positivity
    · norm_num [GAME_CONFIG.BALL_SPEED_MAX]
  have hcos : 0 < Real.cos ((hitPosition - 0.5) * 2 * GAME_CONFIG.MAX_REFLECTION_ANGLE) := by
    apply Real.cos_pos_of_mem_Ioo
    constructor
    · have hpi := Real.pi_pos
      unfold GAME_CONFIG.MAX_REFLECTION_ANGLE
      nlinarith
    · have hpi := Real.pi_pos
      unfold GAME_CONFIG.MAX_REFLECTION_ANGLE
      nlinarith
  constructor
  · show 0 < Real.cos ((hitPosition - 0.5) * 2 * GAME_CONFIG.MAX_REFLECTION_ANGLE) *
      min (Real.sqrt (vx ^ 2 + vy ^ 2) * GAME_CONFIG.BALL_SPEED_INCREASE)
        GAME_CONFIG.BALL_SPEED_MAX * (if (true:Bool) then (1:ℝ) else -1)
    rw [if_pos rfl]
    rw [mul_one]
    exact mul_pos hcos hns
  · show Real.cos ((hitPosition - 0.5) * 2 * GAME_CONFIG.MAX_REFLECTION_ANGLE) *
      min (Real.sqrt (vx ^ 2 + vy ^ 2) * GAME_CONFIG.BALL_SPEED_INCREASE)
        GAME_CONFIG.BALL_SPEED_MAX * (if (false:Bool) then (1:ℝ) else -1) < 0
    rw [if_neg (by simp)]
    nlinarith [mul_pos hcos hns]

/-- Witness for claim C10 (amended): instantiated at a center hit with
incoming velocity `(3, 4)`. -/
theorem calculateReflection_vx_away_witness :
    0 < (calculateReflection 0.5 true 3 4).1 ∧
    (calculateReflection 0.5 false 3 4).1 < 0 :=
  calculateReflection_vx_away 0.5 3 4 (by norm_num) (by norm_num)
    (Or.inl (by norm_num))

/-- Claim C2 (code bug): for every random draw in `[0,1]`,
`resetBall(toLeft = true)` launches the ball with `vx > 0` — toward the right
— because the serve angle already adds `π` and the `cos` is then multiplied by
`-1` again, a double reversal. -/
theorem resetBall_toLeft_vx_pos (rand : ℝ) (h0 : 0 ≤ rand) (h1 : rand ≤ 1)
    (canvasWidth canvasHeight : ℝ) :
    0 < (gameActions.resetBall rand true canvasWidth canvasHeight).vx := by
  have hpi := Real.pi_gt_three
  have hcos : Real.cos ((rand * GAME_CONFIG.ANGLE_VARIATION -
      GAME_CONFIG.ANGLE_VARIATION / 2) + Real.pi) < 0 := by
    apply Real.cos_neg_of_pi_div_two_lt_of_lt
    · unfold GAME_CONFIG.ANGLE_VARIATION
      nlinarith
    · unfold GAME_CONFIG.ANGLE_VARIATION
      nlinarith
  show 0 < Real.cos ((rand * GAME_CONFIG.ANGLE_VARIATION -
      GAME_CONFIG.ANGLE_VARIATION / 2) + (if (true:Bool) then Real.pi else 0)) *
      GAME_CONFIG.BALL_SPEED_START * (if (true:Bool) then (-1:ℝ) else 1)
  rw [if_pos rfl, if_pos rfl]
  have hstart : (0:ℝ) < GAME_CONFIG.BALL_SPEED_START := by
    norm_num [GAME_CONFIG.BALL_SPEED_START]
  nlinarith

/-- Witness for claim C2: instantiated at the draw `0.5` (serve angle exactly
`π`) on the default 800×500 canvas. -/
theorem resetBall_toLeft_vx_pos_witness :
    0 < (gameActions.resetBall 0.5 true 800 500).vx :=
  resetBall_toLeft_vx_pos 0.5 (by norm_num) (by norm_num) 800 500

/-- Bounds of the physics `clamp` onto `[0, M]` for a nonnegative `M`. -/
theorem clamp_bounds (v M : ℝ) (hM : 0 ≤ M) : 0 ≤ clamp v 0 M ∧ clamp v 0 M ≤ M := by
  unfold clamp
  exact ⟨le_max_left _ _, max_le hM (min_le_left _ _)⟩

/-- Claim C6 counterexample: for a paddle taller than the canvas
(`height = 600`, `canvasHeight = 500`), `updatePaddlePosition` yields `y = 0`,
which violates `y ≤ canvasHeight - height = -100`; the claimed bound fails
without a `height ≤ canvasHeight` precondition. -/
theorem updatePaddle_oversized_breaks_bounds :
    ¬ (updatePaddlePosition ⟨0, 600⟩ 0 7 500).y ≤ 500 - (600:ℝ) := by
  show ¬ clamp (0 + 0 * 7) 0 (500 - (600:ℝ)) ≤ 500 - 600
  unfold clamp
  rw [show ((0:ℝ) + 0 * 7) = 0 by norm_num]
  rw [show min ((500:ℝ) - 600) 0 = 500 - 600 from min_eq_left (by norm_num)]
  rw [show max (0:ℝ) (500 - 600) = 0 from max_eq_left (by norm_num)]
  norm_num

/-- Claim C6 (amended): for paddles no taller than the canvas (and a canvas at
least `MIN_PADDLE_HEIGHT` tall for the reset action), every paddle update —
player movement, AI update, the touch-driven store action, and the reset
recentering — leaves the paddle y within `[0, canvasHeight - height]`. -/
theorem paddle_updates_bounded (p : Paddle) (ball : Ball)
    (movement speed canvasWidth canvasHeight y mult rand : ℝ)
    (hh : p.height ≤ canvasHeight)
    (hmin : GAME_CONFIG.MIN_PADDLE_HEIGHT ≤ canvasHeight) :
    (0 ≤ (updatePaddlePosition p movement speed canvasHeight).y ∧
      (updatePaddlePosition p movement speed canvasHeight).y ≤ canvasHeight - p.height) ∧
    (0 ≤ createAI_update ball p canvasWidth canvasHeight mult rand ∧
      createAI_update ball p canvasWidth canvasHeight mult rand ≤ canvasHeight - p.height) ∧
    (0 ≤ gameActions.updatePaddlePosition p canvasHeight y ∧
      gameActions.updatePaddlePosition p canvasHeight y ≤ canvasHeight - p.height) ∧
    (0 ≤ gameActions.resetPositionsY canvasHeight ∧
      gameActions.resetPositionsY canvasHeight ≤
        canvasHeight - gameActions.resetPaddleHeight canvasHeight) := by
  have hM : (0:ℝ) ≤ canvasHeight - p.height := by linarith
  refine ⟨clamp_bounds _ _ hM, ⟨le_max_left _ _, ?_⟩, ⟨le_max_left _ _, ?_⟩, ?_⟩
  · exact max_le hM (min_le_right _ _)
  · exact max_le hM (min_le_left _ _)
  · have hh2 : gameActions.resetPaddleHeight canvasHeight ≤ canvasHeight := by
      unfold gameActions.resetPaddleHeight
      apply max_le hmin
      have h60 : (60:ℝ) ≤ canvasHeight := by
        have h3 := hmin
        norm_num [GAME_CONFIG.MIN_PADDLE_HEIGHT] at h3
        exact h3
      unfold GAME_CONFIG.PADDLE_HEIGHT_SCALE
      nlinarith
    unfold gameActions.resetPositionsY
    constructor <;> nlinarith

/-- Witness for claim C6 (amended): instantiated on the default 500-tall
canvas with a 90-tall paddle. -/
theorem paddle_updates_bounded_witness :
    (0 ≤ (updatePaddlePosition ⟨0, 90⟩ 1 7 500).y ∧
      (updatePaddlePosition ⟨0, 90⟩ 1 7 500).y ≤ 500 - (Paddle.mk 0 90).height) ∧
    (0 ≤ createAI_update ⟨400, 250, 5, 1⟩ ⟨0, 90⟩ 800 500 1 0.5 ∧
      createAI_update ⟨400, 250, 5, 1⟩ ⟨0, 90⟩ 800 500 1 0.5 ≤ 500 - (Paddle.mk 0 90).height) ∧
    (0 ≤ gameActions.updatePaddlePosition ⟨0, 90⟩ 500 1000 ∧
      gameActions.updatePaddlePosition ⟨0, 90⟩ 500 1000 ≤ 500 - (Paddle.mk 0 90).height) ∧
    (0 ≤ gameActions.resetPositionsY 500 ∧
      gameActions.resetPositionsY 500 ≤ 500 - gameActions.resetPaddleHeight 500) :=
  paddle_updates_bounded ⟨0, 90⟩ ⟨400, 250, 5, 1⟩ 1 7 800 500 1000 1 0.5
    (by norm_num) (by norm_num [GAME_CONFIG.MIN_PADDLE_HEIGHT])

/-- Claim C8: when the difficulty multiplier is at least 1, the predictive AI
movement does not depend on the random draw — the injected prediction error is
scaled by `(1 - min(difficulty, 1)) = 0`. -/
theorem predictiveAI_rand_independent (ball : Ball) (paddle : Paddle)
    (canvasWidth canvasHeight difficulty r1 r2 : ℝ) (hd : 1 ≤ difficulty) :
    calculatePredictiveAIMovement ball paddle canvasWidth canvasHeight difficulty r1 =
      calculatePredictiveAIMovement ball paddle canvasWidth canvasHeight difficulty r2 := by
  have hmin : min difficulty 1 = 1 := min_eq_right hd
  unfold calculatePredictiveAIMovement
  simp only [hmin]
  norm_num

/-- Witness for claim C8: instantiated at the impossible profile multiplier
`1.8` with draws `0` and `1`. -/
theorem predictiveAI_rand_independent_witness :
    calculatePredictiveAIMovement ⟨400, 250, 5, 1⟩ ⟨200, 90⟩ 800 500 1.8 0 =
      calculatePredictiveAIMovement ⟨400, 250, 5, 1⟩ ⟨200, 90⟩ 800 500 1.8 1 :=
  predictiveAI_rand_independent ⟨400, 250, 5, 1⟩ ⟨200, 90⟩ 800 500 1.8 0 1
    (by norm_num)

/-- Claim C4 (amended): whenever the left-paddle check on the
post-wall-collision ball does not trigger, the engine's sequential pipeline
agrees with the claimed same-state semantics; in general the right-paddle
check is evaluated against the ball as already mutated by the left
reflection. -/
theorem tickBall_eq_claim_of_no_left_hit (canvasWidth canvasHeight : ℝ)
    (leftPaddle rightPaddle : Paddle) (b : Ball)
    (h : checkPaddleCollision (postWallBall canvasHeight b) leftPaddle true canvasWidth = none) :
    tickBall canvasWidth canvasHeight leftPaddle rightPaddle b =
      tickBallClaim canvasWidth canvasHeight leftPaddle rightPaddle b := by
  simp only [tickBall, tickBallClaim, h]

/-- Evaluation step for the C4 counterexample: moving the ball and resolving
walls on a 500-tall canvas. -/
theorem postWall_eval :
    postWallBall 500 ⟨35, 250, -5, 0⟩ = ⟨30, 250, -5, 0⟩ := by
  unfold postWallBall updateBallPosition checkWallCollision
  norm_num [GAME_CONFIG.BALL_SIZE]

/-- Evaluation step for the C4 counterexample: the left-paddle check fires at
the paddle's vertical center on a 70-wide canvas. -/
theorem leftHit_eval :
    checkPaddleCollision ⟨30, 250, -5, 0⟩ ⟨0, 500⟩ true 70 =
      some ⟨0.5, 37.5, true⟩ := by
  unfold checkPaddleCollision
  rw [if_pos]
  · norm_num [GAME_CONFIG.PADDLE_MARGIN, GAME_CONFIG.PADDLE_WIDTH, GAME_CONFIG.BALL_SIZE]
  · norm_num [GAME_CONFIG.PADDLE_MARGIN, GAME_CONFIG.PADDLE_WIDTH, GAME_CONFIG.BALL_SIZE]

/-- Evaluation step for the C4 counterexample: the center-hit reflection of
velocity `(-5, 0)` off the left paddle. -/
theorem reflect_eval :
    calculateReflection 0.5 true (-5) 0 = (5.3, 0.9) := by
  unfold calculateReflection
  have hz : ((0.5:ℝ) - 0.5) * 2 = 0 := by norm_num
  have hs : Real.sqrt ((-5:ℝ) ^ 2 + 0 ^ 2) = 5 := by
    rw [show ((-5:ℝ) ^ 2 + 0 ^ 2) = 5 ^ 2 by norm_num]
    exact Real.sqrt_sq (by norm_num)
  simp only [hz, zero_mul, Real.cos_zero, Real.sin_zero, hs]
  rw [show min ((5:ℝ) * GAME_CONFIG.BALL_SPEED_INCREASE) GAME_CONFIG.BALL_SPEED_MAX = 5.3 by
    rw [min_eq_left (by norm_num [GAME_CONFIG.BALL_SPEED_INCREASE, GAME_CONFIG.BALL_SPEED_MAX])]
    norm_num [GAME_CONFIG.BALL_SPEED_INCREASE]]
  norm_num [jsSign, Real.sign_one, GAME_CONFIG.MIN_BALL_SPEED_Y]

/-- Evaluation step for the C4 counterexample: applying the left reflection
repositions the ball to `x = 37.5` moving right at `(5.3, 0.9)`. -/
theorem applyLeft_eval :
    applyPaddleHit ⟨30, 250, -5, 0⟩ ⟨0.5, 37.5, true⟩ = ⟨37.5, 250, 5.3, 0.9⟩ := by
  unfold applyPaddleHit
  rw [show (PaddleHit.mk 0.5 37.5 true).hitPosition = 0.5 from rfl,
    show (PaddleHit.mk 0.5 37.5 true).isLeftPaddle = true from rfl,
    show (PaddleHit.mk 0.5 37.5 true).newX = 37.5 from rfl,
    show (Ball.mk 30 250 (-5) 0).vx = -5 from rfl,
    show (Ball.mk 30 250 (-5) 0).vy = 0 from rfl]
  rw [reflect_eval]

/-- Evaluation step for the C4 counterexample: on the narrow canvas the
right-paddle check fires on the ball already reflected off the left paddle. -/
theorem rightHit_eval :
    checkPaddleCollision ⟨37.5, 250, 5.3, 0.9⟩ ⟨0, 500⟩ false 70 =
      some ⟨0.5, 32.5, false⟩ := by
  unfold checkPaddleCollision
  rw [if_pos]
  · norm_num [GAME_CONFIG.PADDLE_MARGIN, GAME_CONFIG.PADDLE_WIDTH, GAME_CONFIG.BALL_SIZE]
  · norm_num [GAME_CONFIG.PADDLE_MARGIN, GAME_CONFIG.PADDLE_WIDTH, GAME_CONFIG.BALL_SIZE]

/-- Evaluation step for the C4 counterexample: on the same post-wall ball
(still moving left) the right-paddle check does not fire. -/
theorem rightHit_none_eval :
    checkPaddleCollision ⟨30, 250, -5, 0⟩ ⟨0, 500⟩ false 70 = none := by
  unfold checkPaddleCollision
  rw [if_neg]
  norm_num [GAME_CONFIG.PADDLE_MARGIN, GAME_CONFIG.PADDLE_WIDTH, GAME_CONFIG.BALL_SIZE]

/-- Claim C4 counterexample: on a 70-wide canvas with full-height paddles, a
ball arriving at the left paddle is reflected by the left paddle and then
again by the right paddle within the same tick (final `x = 32.5`, the right
paddle's repositioning), while under the claimed same-state semantics only the
left reflection applies (final `x = 37.5`); so the right check does see the
left reflection's output and two reflections can occur in one tick. -/
theorem tickBall_double_reflection :
    (tickBall 70 500 ⟨0, 500⟩ ⟨0, 500⟩ ⟨35, 250, -5, 0⟩).x = 32.5 ∧
    (tickBallClaim 70 500 ⟨0, 500⟩ ⟨0, 500⟩ ⟨35, 250, -5, 0⟩).x = 37.5 := by
  constructor
  · simp only [tickBall, postWall_eval, leftHit_eval, applyLeft_eval, rightHit_eval]
    rfl
  · simp only [tickBallClaim, postWall_eval, leftHit_eval, applyLeft_eval, rightHit_none_eval]

/-- Witness for claim C4 (amended): on the default 800×500 canvas a ball in
midfield moving right misses the left paddle, and the two tick semantics
coincide. -/
theorem tickBall_eq_claim_of_no_left_hit_witness :
    tickBall 800 500 ⟨0, 500⟩ ⟨0, 500⟩ ⟨400, 250, 5, 0⟩ =
      tickBallClaim 800 500 ⟨0, 500⟩ ⟨0, 500⟩ ⟨400, 250, 5, 0⟩ :=
  tickBall_eq_claim_of_no_left_hit 800 500 ⟨0, 500⟩ ⟨0, 500⟩ ⟨400, 250, 5, 0⟩ (by
    have hpw : postWallBall 500 ⟨400, 250, 5, 0⟩ = ⟨405, 250, 5, 0⟩ := by
      unfold postWallBall updateBallPosition checkWallCollision
      norm_num [GAME_CONFIG.BALL_SIZE]
    rw [hpw]
    unfold checkPaddleCollision
    rw [if_neg]
    norm_num [GAME_CONFIG.PADDLE_MARGIN, GAME_CONFIG.PADDLE_WIDTH, GAME_CONFIG.BALL_SIZE])
